import Mathlib

/-!
# ScalpingApp — verification of the core decision logic

Shallow embedding of the ScalpingApp repository's core:

* `src/config.py`         — market session boundary constants;
* `src/prediction_engine.py` — session clock (`get_time_status`), market
  regime classifier (`compute_market_regime`) and the per-instrument
  confidence-scoring block of `generate_predictions_for_watchlist`;
* `src/sentiment_engine.py` — keyword sentiment and news-risk classifiers;
* `src/journal.py`        — `upsert_predictions` over the prediction journal.

Conventions of the embedding:

* Python `datetime.time` values are modelled as minutes of a 24h clock
  (`Nat`, seconds ignored; all constants in the source are whole minutes
  and all comparisons are total-order comparisons, so minute granularity
  is faithful for every boundary in the source).
* Python floats are modelled as `ℚ` with exact arithmetic.  `round(x, 2)`
  is modelled as rounding to an integer number of hundredths; all values
  the claims evaluate are exact multiples of `1/100`, where the two agree.
* pandas `std()` (sample standard deviation) is compared against a
  nonnegative threshold `c`; since `Real.sqrt` is monotone, `std ≥ c` is
  encoded as `var ≥ c^2` and `std ≤ c` as `var ≤ c^2`, where `var` is the
  sample variance — an exact, executable rendering over `ℚ`.
* String enum values of the source ("SCALP_1", "LONG_BIAS", …) are
  modelled as inductive enums with the same spellings.
-/

/-! ## Enumerations of the data model -/

inductive SessionPhase
  | CLOSED | STUDY | SCALP_1 | NO_NEW_1 | SCALP_2 | NO_NEW_2 | OPEN
  deriving DecidableEq, Repr, Fintype

inductive MarketRegime
  | TREND_DAY | RANGE_DAY | HIGH_VOLATILITY | LOW_VOLATILITY | UNKNOWN
  deriving DecidableEq, Repr, Fintype

inductive NiftyTrend
  | BULLISH | BEARISH | NEUTRAL
  deriving DecidableEq, Repr, Fintype

inductive StockTrend
  | UP | DOWN | SIDEWAYS
  deriving DecidableEq, Repr, Fintype

inductive VolumeSignal
  | HIGH | NORMAL | LOW | UNKNOWN
  deriving DecidableEq, Repr, Fintype

inductive VolatilityLabel
  | HIGH | MEDIUM | LOW
  deriving DecidableEq, Repr, Fintype

inductive SentimentLabel
  | POSITIVE | NEGATIVE | NEUTRAL
  deriving DecidableEq, Repr, Fintype

inductive NewsRiskFlag
  | NONE | EVENT_RISK | BREAKING
  deriving DecidableEq, Repr, Fintype

inductive PredictionAction
  | LONG_BIAS | SHORT_BIAS | NO_TRADE
  deriving DecidableEq, Repr, Fintype

/-! ## Session clock — `src/config.py` lines 14–28, `src/prediction_engine.py` lines 29–78 -/

/-- `time(h, m)` of the source, as minutes of the 24h clock. -/
def timeHM (h m : Nat) : Nat := 60 * h + m

def MARKET_OPEN : Nat := timeHM 9 15
def STUDY_END : Nat := timeHM 10 0
def SCALP_1_START : Nat := timeHM 10 0
def SCALP_1_END : Nat := timeHM 11 30
def NO_NEW_1_START : Nat := SCALP_1_END
def NO_NEW_1_END : Nat := timeHM 13 30
def SCALP_2_START : Nat := timeHM 13 30
def SCALP_2_END : Nat := timeHM 14 45
def NO_NEW_2_START : Nat := SCALP_2_END
def MARKET_CLOSE : Nat := timeHM 15 30

/-- The `code` field of `get_time_status` (`prediction_engine.py` 29–78):
the cascade of time-window tests, including the final `OPEN` fallback. -/
def get_time_status (t : Nat) : SessionPhase :=
  if t < MARKET_OPEN ∨ t > MARKET_CLOSE then SessionPhase.CLOSED
  else if MARKET_OPEN ≤ t ∧ t < STUDY_END then SessionPhase.STUDY
  else if SCALP_1_START ≤ t ∧ t < SCALP_1_END then SessionPhase.SCALP_1
  else if NO_NEW_1_START ≤ t ∧ t < NO_NEW_1_END then SessionPhase.NO_NEW_1
  else if SCALP_2_START ≤ t ∧ t < SCALP_2_END then SessionPhase.SCALP_2
  else if NO_NEW_2_START ≤ t ∧ t ≤ MARKET_CLOSE then SessionPhase.NO_NEW_2
  else SessionPhase.OPEN

/-- The partition of the day exactly as the spec words it: CLOSED when
time < 09:15 or time > 15:30; STUDY on [09:15, 10:00); SCALP_1 on
[10:00, 11:30); NO_NEW_1 on [11:30, 13:30); SCALP_2 on [13:30, 14:45);
NO_NEW_2 on [14:45, 15:30]. -/
def phaseSpec (t : Nat) : SessionPhase :=
  if t < timeHM 9 15 ∨ t > timeHM 15 30 then SessionPhase.CLOSED
  else if t < timeHM 10 0 then SessionPhase.STUDY
  else if t < timeHM 11 30 then SessionPhase.SCALP_1
  else if t < timeHM 13 30 then SessionPhase.NO_NEW_1
  else if t < timeHM 14 45 then SessionPhase.SCALP_2
  else SessionPhase.NO_NEW_2

/-! ## Confidence scoring — `src/prediction_engine.py` lines 214–218 and 261–356

The per-instrument scoring block is a pure function of the evaluation
context (session phase, market regime, NIFTY trend) and the instrument's
features (trend, volume signal, volatility label, whether a last price is
known), its sentiment label and its news-risk flag.  Each numbered block
of the source becomes one definition below. -/

/-- Lines 214–218: `actionable = status_code in ("SCALP_1", "SCALP_2")`,
then disabled again when `status_code == "SCALP_2"` and
`market_regime == "LOW_VOLATILITY"`. -/
def actionable (phase : SessionPhase) (regime : MarketRegime) : Bool :=
  let a := phase = SessionPhase.SCALP_1 ∨ phase = SessionPhase.SCALP_2
  if phase = SessionPhase.SCALP_2 ∧ regime = MarketRegime.LOW_VOLATILITY then
    false
  else a

/-- Lines 261–269: action selection.  `priceKnown` models
`not np.isnan(last_price)` (the intraday series was non-empty). -/
def predictionAction (act : Bool) (priceKnown : Bool)
    (niftyTrend : NiftyTrend) (stockTrend : StockTrend)
    (sentimentLabel : SentimentLabel) : PredictionAction :=
  if act ∧ priceKnown then
    if niftyTrend = NiftyTrend.BULLISH ∧ stockTrend = StockTrend.UP ∧
        sentimentLabel ≠ SentimentLabel.NEGATIVE then
      PredictionAction.LONG_BIAS
    else if niftyTrend = NiftyTrend.BEARISH ∧ stockTrend = StockTrend.DOWN ∧
        sentimentLabel ≠ SentimentLabel.POSITIVE then
      PredictionAction.SHORT_BIAS
    else
      PredictionAction.NO_TRADE
  else
    PredictionAction.NO_TRADE

/-- Lines 272–287: trend alignment component. -/
def trendComponent (action : PredictionAction)
    (niftyTrend : NiftyTrend) (stockTrend : StockTrend) : ℚ :=
  match action with
  | PredictionAction.LONG_BIAS =>
      if niftyTrend = NiftyTrend.BULLISH ∧ stockTrend = StockTrend.UP then 1.0
      else if (niftyTrend = NiftyTrend.BULLISH ∨ niftyTrend = NiftyTrend.NEUTRAL) ∧
          stockTrend = StockTrend.UP then 0.7
      else 0.3
  | PredictionAction.SHORT_BIAS =>
      if niftyTrend = NiftyTrend.BEARISH ∧ stockTrend = StockTrend.DOWN then 1.0
      else if (niftyTrend = NiftyTrend.BEARISH ∨ niftyTrend = NiftyTrend.NEUTRAL) ∧
          stockTrend = StockTrend.DOWN then 0.7
      else 0.3
  | PredictionAction.NO_TRADE => 0.0

/-- Lines 289–297: volume confirmation component. -/
def volumeComponent (volumeSignal : VolumeSignal) : ℚ :=
  match volumeSignal with
  | VolumeSignal.HIGH => 1.0
  | VolumeSignal.NORMAL => 0.7
  | VolumeSignal.LOW => 0.3
  | VolumeSignal.UNKNOWN => 0.5

/-- Lines 299–315: sentiment support component. -/
def sentimentComponent (action : PredictionAction)
    (sentimentLabel : SentimentLabel) : ℚ :=
  match action with
  | PredictionAction.LONG_BIAS =>
      if sentimentLabel = SentimentLabel.POSITIVE then 1.0
      else if sentimentLabel = SentimentLabel.NEUTRAL then 0.7
      else 0.3
  | PredictionAction.SHORT_BIAS =>
      if sentimentLabel = SentimentLabel.NEGATIVE then 1.0
      else if sentimentLabel = SentimentLabel.NEUTRAL then 0.7
      else 0.3
  | PredictionAction.NO_TRADE => 0.5

/-- Lines 317–323: volatility suitability component. -/
def volatilityComponent (volatilityLabel : VolatilityLabel) : ℚ :=
  match volatilityLabel with
  | VolatilityLabel.HIGH => 1.0
  | VolatilityLabel.MEDIUM => 0.8
  | VolatilityLabel.LOW => 0.4

/-- Lines 326–334: the weighted sum, or `0.0` when the action is
`NO_TRADE` or the window is not actionable. -/
def baseConfidence (action : PredictionAction) (act : Bool)
    (tc vc sc voc : ℚ) : ℚ :=
  if action = PredictionAction.NO_TRADE ∨ act = false then 0.0
  else 0.30 * tc + 0.25 * vc + 0.20 * sc + 0.25 * voc

/-- Lines 336–340: regime dampening, applied unconditionally after the
weighted sum. -/
def regimeAdjust (regime : MarketRegime) (x : ℚ) : ℚ :=
  if regime = MarketRegime.RANGE_DAY then x * 0.7
  else if regime = MarketRegime.LOW_VOLATILITY then x * 0.6
  else x

/-- Lines 342–344: risk capping. -/
def riskCap (risk : NewsRiskFlag) (x : ℚ) : ℚ :=
  if risk = NewsRiskFlag.EVENT_RISK ∨ risk = NewsRiskFlag.BREAKING then
    min x 0.6
  else x

/-- Line 346: `round(x, 2)` — round to a whole number of hundredths.
(`Mathlib.round` rounds halves up where Python rounds them to even; every
value a claim evaluates is an exact multiple of `1/100`, where both
agree, and the bound claims only need monotonicity and exactness at
multiples of `1/100`.) -/
def roundTo2 (x : ℚ) : ℚ := (round (100 * x) : ℤ) / 100

/-- Lines 326–346 composed: the final confidence score of one instrument. -/
def overallConfidence (phase : SessionPhase) (regime : MarketRegime)
    (priceKnown : Bool) (niftyTrend : NiftyTrend) (stockTrend : StockTrend)
    (volumeSignal : VolumeSignal) (volatilityLabel : VolatilityLabel)
    (sentimentLabel : SentimentLabel) (risk : NewsRiskFlag) : ℚ :=
  let act := actionable phase regime
  let action := predictionAction act priceKnown niftyTrend stockTrend sentimentLabel
  roundTo2 (riskCap risk (regimeAdjust regime
    (baseConfidence action act
      (trendComponent action niftyTrend stockTrend)
      (volumeComponent volumeSignal)
      (sentimentComponent action sentimentLabel)
      (volatilityComponent volatilityLabel))))

/-- Lines 349–356: confidence level label. -/
def confidenceLevelLabel (x : ℚ) : String :=
  if x ≥ 0.7 then "High"
  else if x ≥ 0.4 then "Medium"
  else if x > 0 then "Low"
  else "Very Low or No Trade"

/-! ## C2 — session clock partition -/

/-- **C2.** For every timestamp of a 24h clock (any minute count; times past
15:30 — including any `t ≥ 1440` — fall in the CLOSED branch),
`get_time_status` returns exactly the phase of the spec's partition, the
`OPEN` fallback is never returned, and the nine quoted boundary values
hold: 09:14 ↦ CLOSED, 09:15 ↦ STUDY, 09:59 ↦ STUDY, 10:00 ↦ SCALP_1,
11:30 ↦ NO_NEW_1, 13:30 ↦ SCALP_2, 14:45 ↦ NO_NEW_2, 15:30 ↦ NO_NEW_2,
15:31 ↦ CLOSED. -/
theorem get_time_status_partition :
    (∀ t : Nat, get_time_status t = phaseSpec t) ∧
    (∀ t : Nat, get_time_status t ≠ SessionPhase.OPEN) ∧
    get_time_status (timeHM 9 14) = SessionPhase.CLOSED ∧
    get_time_status (timeHM 9 15) = SessionPhase.STUDY ∧
    get_time_status (timeHM 9 59) = SessionPhase.STUDY ∧
    get_time_status (timeHM 10 0) = SessionPhase.SCALP_1 ∧
    get_time_status (timeHM 11 30) = SessionPhase.NO_NEW_1 ∧
    get_time_status (timeHM 13 30) = SessionPhase.SCALP_2 ∧
    get_time_status (timeHM 14 45) = SessionPhase.NO_NEW_2 ∧
    get_time_status (timeHM 15 30) = SessionPhase.NO_NEW_2 ∧
    get_time_status (timeHM 15 31) = SessionPhase.CLOSED := by
  have hpart : ∀ t : Nat, get_time_status t = phaseSpec t := by
    intro t
    simp only [get_time_status, phaseSpec, MARKET_OPEN, MARKET_CLOSE, STUDY_END,
      SCALP_1_START, SCALP_1_END, NO_NEW_1_START, NO_NEW_1_END, SCALP_2_START,
      SCALP_2_END, NO_NEW_2_START, timeHM]
    split_ifs <;> first | rfl | omega
  refine ⟨hpart, ?_, by decide, by decide, by decide, by decide, by decide,
    by decide, by decide, by decide, by decide⟩
  intro t
  rw [hpart t]
  simp only [phaseSpec, timeHM]
  split_ifs <;> simp

/-! ## C1 — bounds on the confidence score -/

theorem trendComponent_bounds (a : PredictionAction) (nt : NiftyTrend)
    (st : StockTrend) : 0 ≤ trendComponent a nt st ∧ trendComponent a nt st ≤ 1 := by
  cases a <;> cases nt <;> cases st <;> simp only [trendComponent] <;>
    first
      | (split_ifs <;> norm_num)
      | norm_num

theorem volumeComponent_bounds (vs : VolumeSignal) :
    0 ≤ volumeComponent vs ∧ volumeComponent vs ≤ 1 := by
  cases vs <;> norm_num [volumeComponent]

theorem sentimentComponent_bounds (a : PredictionAction) (sl : SentimentLabel) :
    0 ≤ sentimentComponent a sl ∧ sentimentComponent a sl ≤ 1 := by
  cases a <;> cases sl <;> simp only [sentimentComponent] <;>
    first
      | (split_ifs <;> norm_num)
      | norm_num

theorem volatilityComponent_bounds (vl : VolatilityLabel) :
    0 ≤ volatilityComponent vl ∧ volatilityComponent vl ≤ 1 := by
  cases vl <;> norm_num [volatilityComponent]

theorem baseConfidence_bounds (action : PredictionAction) (act : Bool)
    {tc vc sc voc : ℚ} (h1 : 0 ≤ tc ∧ tc ≤ 1) (h2 : 0 ≤ vc ∧ vc ≤ 1)
    (h3 : 0 ≤ sc ∧ sc ≤ 1) (h4 : 0 ≤ voc ∧ voc ≤ 1) :
    0 ≤ baseConfidence action act tc vc sc voc ∧
      baseConfidence action act tc vc sc voc ≤ 1 := by
  unfold baseConfidence
  split_ifs
  · norm_num
  · constructor <;> nlinarith [h1.1, h1.2, h2.1, h2.2, h3.1, h3.2, h4.1, h4.2]

theorem regimeAdjust_bounds (regime : MarketRegime) {x : ℚ} (h0 : 0 ≤ x) :
    0 ≤ regimeAdjust regime x ∧ regimeAdjust regime x ≤ x := by
  unfold regimeAdjust
  split_ifs <;> constructor <;> nlinarith

theorem riskCap_bounds (risk : NewsRiskFlag) {x : ℚ} (h0 : 0 ≤ x) :
    0 ≤ riskCap risk x ∧ riskCap risk x ≤ x := by
  unfold riskCap
  split_ifs
  · exact ⟨le_min h0 (by norm_num), min_le_left _ _⟩
  · exact ⟨h0, le_refl x⟩

theorem riskCap_elevated_le (risk : NewsRiskFlag) (x : ℚ)
    (h : risk = NewsRiskFlag.EVENT_RISK ∨ risk = NewsRiskFlag.BREAKING) :
    riskCap risk x ≤ 3/5 := by
  unfold riskCap
  split_ifs
  exact le_trans (min_le_right _ _) (by norm_num)

theorem roundTo2_nonneg {x : ℚ} (hx : 0 ≤ x) : 0 ≤ roundTo2 x := by
  unfold roundTo2
  have h1 : (0 : ℤ) ≤ round (100 * x) := by
    rw [round_eq]
    exact Int.floor_nonneg.mpr (by linarith)
  have h2 : (0 : ℚ) ≤ ((round (100 * x) : ℤ) : ℚ) := by exact_mod_cast h1
  linarith

theorem roundTo2_le_one {x : ℚ} (hx : x ≤ 1) : roundTo2 x ≤ 1 := by
  unfold roundTo2
  have h1 : round (100 * x) ≤ (100 : ℤ) := by
    rw [round_eq]
    have : (⌊(201 : ℚ)/2⌋ : ℤ) = 100 := by
      rw [Int.floor_eq_iff]
      norm_num
    calc ⌊100 * x + 1/2⌋ ≤ ⌊(201 : ℚ)/2⌋ := Int.floor_le_floor (by linarith)
      _ = 100 := this
  have h2 : ((round (100 * x) : ℤ) : ℚ) ≤ 100 := by exact_mod_cast h1
  linarith

theorem roundTo2_le_threshold {x : ℚ} (hx : x ≤ 3/5) : roundTo2 x ≤ 3/5 := by
  unfold roundTo2
  have h1 : round (100 * x) ≤ (60 : ℤ) := by
    rw [round_eq]
    have : (⌊(121 : ℚ)/2⌋ : ℤ) = 60 := by
      rw [Int.floor_eq_iff]
      norm_num
    calc ⌊100 * x + 1/2⌋ ≤ ⌊(121 : ℚ)/2⌋ := Int.floor_le_floor (by linarith)
      _ = 60 := this
  have h2 : ((round (100 * x) : ℤ) : ℚ) ≤ 60 := by exact_mod_cast h1
  linarith

theorem roundTo2_zero : roundTo2 0 = 0 := by
  norm_num [roundTo2]

theorem baseConfidence_no_trade (act : Bool) (tc vc sc voc : ℚ) :
    baseConfidence PredictionAction.NO_TRADE act tc vc sc voc = 0 := by
  unfold baseConfidence
  rw [if_pos (Or.inl rfl)]
  norm_num

theorem regimeAdjust_zero (regime : MarketRegime) : regimeAdjust regime 0 = 0 := by
  unfold regimeAdjust
  split_ifs <;> norm_num

theorem riskCap_zero (risk : NewsRiskFlag) : riskCap risk 0 = 0 := by
  unfold riskCap
  split_ifs
  · exact min_eq_left (by norm_num)
  · rfl

/-- **C1.** For every combination of session phase, market regime,
instrument features, sentiment label and news-risk flag, the overall
confidence score lies in `[0, 1]`; whenever the prediction action is
`NO_TRADE` the score is exactly `0`; and whenever the news-risk flag is
`EVENT_RISK` or `BREAKING` the final rounded score is at most
`0.6 = 3/5`. -/
theorem overallConfidence_props (phase : SessionPhase) (regime : MarketRegime)
    (pk : Bool) (nt : NiftyTrend) (st : StockTrend) (vs : VolumeSignal)
    (vl : VolatilityLabel) (sl : SentimentLabel) (risk : NewsRiskFlag) :
    0 ≤ overallConfidence phase regime pk nt st vs vl sl risk ∧
      overallConfidence phase regime pk nt st vs vl sl risk ≤ 1 ∧
      (predictionAction (actionable phase regime) pk nt st sl =
          PredictionAction.NO_TRADE →
        overallConfidence phase regime pk nt st vs vl sl risk = 0) ∧
      ((risk = NewsRiskFlag.EVENT_RISK ∨ risk = NewsRiskFlag.BREAKING) →
        overallConfidence phase regime pk nt st vs vl sl risk ≤ 3/5) := by
  have hb := baseConfidence_bounds
      (predictionAction (actionable phase regime) pk nt st sl)
      (actionable phase regime)
      (trendComponent_bounds (predictionAction (actionable phase regime) pk nt st sl) nt st)
      (volumeComponent_bounds vs)
      (sentimentComponent_bounds (predictionAction (actionable phase regime) pk nt st sl) sl)
      (volatilityComponent_bounds vl)
  have hr := regimeAdjust_bounds regime hb.1
  have hc := riskCap_bounds risk hr.1
  simp only [overallConfidence]
  refine ⟨roundTo2_nonneg hc.1, roundTo2_le_one (by linarith [hb.2, hr.2, hc.2]),
    ?_, ?_⟩
  · intro hNT
    rw [hNT, baseConfidence_no_trade, regimeAdjust_zero, riskCap_zero,
      roundTo2_zero]
  · intro hrisk
    exact roundTo2_le_threshold (riskCap_elevated_le risk _ hrisk)

/-- Witness for C1: at phase `CLOSED`, risk `BREAKING`, the action is
`NO_TRADE`, so both implications fire: the score is `0` and `≤ 3/5`. -/
theorem overallConfidence_props_witness :
    0 ≤ overallConfidence SessionPhase.CLOSED MarketRegime.UNKNOWN true
        NiftyTrend.BULLISH StockTrend.UP VolumeSignal.HIGH
        VolatilityLabel.HIGH SentimentLabel.NEUTRAL NewsRiskFlag.BREAKING ∧
      overallConfidence SessionPhase.CLOSED MarketRegime.UNKNOWN true
        NiftyTrend.BULLISH StockTrend.UP VolumeSignal.HIGH
        VolatilityLabel.HIGH SentimentLabel.NEUTRAL NewsRiskFlag.BREAKING ≤ 1 ∧
      overallConfidence SessionPhase.CLOSED MarketRegime.UNKNOWN true
        NiftyTrend.BULLISH StockTrend.UP VolumeSignal.HIGH
        VolatilityLabel.HIGH SentimentLabel.NEUTRAL NewsRiskFlag.BREAKING = 0 ∧
      overallConfidence SessionPhase.CLOSED MarketRegime.UNKNOWN true
        NiftyTrend.BULLISH StockTrend.UP VolumeSignal.HIGH
        VolatilityLabel.HIGH SentimentLabel.NEUTRAL NewsRiskFlag.BREAKING ≤ 3/5 := by
  have h := overallConfidence_props SessionPhase.CLOSED MarketRegime.UNKNOWN true
      NiftyTrend.BULLISH StockTrend.UP VolumeSignal.HIGH
      VolatilityLabel.HIGH SentimentLabel.NEUTRAL NewsRiskFlag.BREAKING
  exact ⟨h.1, h.2.1, h.2.2.1 (by decide), h.2.2.2 (Or.inr rfl)⟩

/-! ## C3 — gating to NO_TRADE -/

/-- **C3.** The prediction action is `NO_TRADE` whenever the phase is not
a scalping window, or the pair (SCALP_2, LOW_VOLATILITY) holds, or the
last price is unknown — for all values of the other inputs. -/
theorem no_trade_gating :
    ∀ (phase : SessionPhase) (regime : MarketRegime) (pk : Bool)
      (nt : NiftyTrend) (st : StockTrend) (sl : SentimentLabel),
      (¬(phase = SessionPhase.SCALP_1 ∨ phase = SessionPhase.SCALP_2) ∨
        (phase = SessionPhase.SCALP_2 ∧ regime = MarketRegime.LOW_VOLATILITY) ∨
        pk = false) →
      predictionAction (actionable phase regime) pk nt st sl =
        PredictionAction.NO_TRADE := by
  decide

/-- Witness for C3: at phase `CLOSED` the gate fires. -/
theorem no_trade_gating_witness :
    predictionAction (actionable SessionPhase.CLOSED MarketRegime.TREND_DAY)
        true NiftyTrend.BULLISH StockTrend.UP SentimentLabel.NEUTRAL =
      PredictionAction.NO_TRADE :=
  no_trade_gating SessionPhase.CLOSED MarketRegime.TREND_DAY true
    NiftyTrend.BULLISH StockTrend.UP SentimentLabel.NEUTRAL
    (Or.inl (by decide))

/-! ## C10 — the trend component only takes the values 0 and 1 -/

/-- **C10.** For every input to the scoring loop the trend component is
either `0` (exactly when the action is `NO_TRADE`) or `1` (exactly when
the action is `LONG_BIAS` or `SHORT_BIAS`): the `0.7` and `0.3` tiers of
lines 272–287 are unreachable, because action selection already requires
full alignment of benchmark trend and instrument trend. -/
theorem trendComponent_dichotomy :
    ∀ (phase : SessionPhase) (regime : MarketRegime) (pk : Bool)
      (nt : NiftyTrend) (st : StockTrend) (sl : SentimentLabel),
      (predictionAction (actionable phase regime) pk nt st sl =
          PredictionAction.NO_TRADE ∧
        trendComponent (predictionAction (actionable phase regime) pk nt st sl)
          nt st = 0) ∨
      ((predictionAction (actionable phase regime) pk nt st sl =
            PredictionAction.LONG_BIAS ∨
          predictionAction (actionable phase regime) pk nt st sl =
            PredictionAction.SHORT_BIAS) ∧
        trendComponent (predictionAction (actionable phase regime) pk nt st sl)
          nt st = 1) := by
  intro phase regime pk nt st sl
  unfold predictionAction
  split_ifs with h0 h1 h2
  · right
    refine ⟨Or.inl rfl, ?_⟩
    simp only [trendComponent]
    rw [if_pos ⟨h1.1, h1.2.1⟩]
    norm_num
  · right
    refine ⟨Or.inr rfl, ?_⟩
    simp only [trendComponent]
    rw [if_pos ⟨h2.1, h2.2.1⟩]
    norm_num
  · left
    refine ⟨rfl, ?_⟩
    simp only [trendComponent]
    norm_num
  · left
    refine ⟨rfl, ?_⟩
    simp only [trendComponent]
    norm_num

/-! ## C8 — end-to-end scenario -/

/-- **C8.** With benchmark trend BULLISH, instrument trend UP, sentiment
NEUTRAL, volume HIGH, volatility HIGH, phase SCALP_1, regime TREND_DAY,
risk NONE (and a known last price), the model yields action `LONG_BIAS`,
components 1.0 / 1.0 / 0.7 / 1.0, overall score
`round(0.30·1 + 0.25·1 + 0.20·0.7 + 0.25·1, 2) = 0.94` and label "High". -/
theorem end_to_end_scenario :
    predictionAction (actionable SessionPhase.SCALP_1 MarketRegime.TREND_DAY)
        true NiftyTrend.BULLISH StockTrend.UP SentimentLabel.NEUTRAL =
      PredictionAction.LONG_BIAS ∧
    trendComponent PredictionAction.LONG_BIAS NiftyTrend.BULLISH StockTrend.UP = 1 ∧
    volumeComponent VolumeSignal.HIGH = 1 ∧
    sentimentComponent PredictionAction.LONG_BIAS SentimentLabel.NEUTRAL = 0.7 ∧
    volatilityComponent VolatilityLabel.HIGH = 1 ∧
    overallConfidence SessionPhase.SCALP_1 MarketRegime.TREND_DAY true
        NiftyTrend.BULLISH StockTrend.UP VolumeSignal.HIGH VolatilityLabel.HIGH
        SentimentLabel.NEUTRAL NewsRiskFlag.NONE =
      roundTo2 (0.30 + 0.25 + 0.14 + 0.25) ∧
    overallConfidence SessionPhase.SCALP_1 MarketRegime.TREND_DAY true
        NiftyTrend.BULLISH StockTrend.UP VolumeSignal.HIGH VolatilityLabel.HIGH
        SentimentLabel.NEUTRAL NewsRiskFlag.NONE = 0.94 ∧
    confidenceLevelLabel
        (overallConfidence SessionPhase.SCALP_1 MarketRegime.TREND_DAY true
          NiftyTrend.BULLISH StockTrend.UP VolumeSignal.HIGH VolatilityLabel.HIGH
          SentimentLabel.NEUTRAL NewsRiskFlag.NONE) = "High" := by
  have hact : actionable SessionPhase.SCALP_1 MarketRegime.TREND_DAY = true := by
    decide
  have hpa : predictionAction
      (actionable SessionPhase.SCALP_1 MarketRegime.TREND_DAY) true
      NiftyTrend.BULLISH StockTrend.UP SentimentLabel.NEUTRAL =
      PredictionAction.LONG_BIAS := by decide
  have htc : trendComponent PredictionAction.LONG_BIAS NiftyTrend.BULLISH
      StockTrend.UP = 1 := by
    simp only [trendComponent]
    norm_num
  have hvc : volumeComponent VolumeSignal.HIGH = 1 := by
    simp only [volumeComponent]
    norm_num
  have hsc : sentimentComponent PredictionAction.LONG_BIAS
      SentimentLabel.NEUTRAL = 0.7 := by
    simp only [sentimentComponent]
    rw [if_neg (by decide), if_pos trivial]
  have hvoc : volatilityComponent VolatilityLabel.HIGH = 1 := by
    simp only [volatilityComponent]
    norm_num
  have hbase : baseConfidence PredictionAction.LONG_BIAS true 1 1 0.7 1 =
      (0.94 : ℚ) := by
    unfold baseConfidence
    rw [if_neg (by decide)]
    norm_num
  have hadj : regimeAdjust MarketRegime.TREND_DAY (0.94 : ℚ) = 0.94 := by
    unfold regimeAdjust
    rw [if_neg (by decide), if_neg (by decide)]
  have hcap : riskCap NewsRiskFlag.NONE (0.94 : ℚ) = 0.94 := by
    unfold riskCap
    rw [if_neg (by decide)]
  have hround : roundTo2 (0.94 : ℚ) = 0.94 := by
    unfold roundTo2
    norm_num [round_eq]
  have hoc : overallConfidence SessionPhase.SCALP_1 MarketRegime.TREND_DAY true
      NiftyTrend.BULLISH StockTrend.UP VolumeSignal.HIGH VolatilityLabel.HIGH
      SentimentLabel.NEUTRAL NewsRiskFlag.NONE = 0.94 := by
    have hpa2 : predictionAction true true NiftyTrend.BULLISH StockTrend.UP
        SentimentLabel.NEUTRAL = PredictionAction.LONG_BIAS := by decide
    simp only [overallConfidence, hact]
    rw [hpa2, htc, hvc, hsc, hvoc, hbase, hadj, hcap, hround]
  have hform : roundTo2 ((0.30 : ℚ) + 0.25 + 0.14 + 0.25) = 0.94 := by
    have : ((0.30 : ℚ) + 0.25 + 0.14 + 0.25) = 0.94 := by norm_num
    rw [this, hround]
  have hlbl : confidenceLevelLabel (0.94 : ℚ) = "High" := by
    unfold confidenceLevelLabel
    rw [if_pos (by norm_num)]
  exact ⟨hpa, htc, hvc, hsc, hvoc, by rw [hoc, hform], hoc, by rw [hoc, hlbl]⟩

/-! ## Sentiment & news-risk classifier — `src/sentiment_engine.py`

Python's `w in text.lower()` substring test is modelled as a contiguous
sublist test over the lower-cased character list of
`title + " " + description`. -/

structure Headline where
  title : String
  description : String
  deriving DecidableEq, Repr

def POSITIVE_WORDS : List String :=
  ["upgrade", "upgrades", "beat", "record", "surge", "rally", "profit",
   "profits", "growth", "positive", "strong", "beat estimates"]

def NEGATIVE_WORDS : List String :=
  ["downgrade", "downgrades", "miss", "missed", "loss", "losses", "scam",
   "fraud", "fall", "drop", "negative", "penalty", "fine", "probe",
   "investigation"]

def EVENT_KEYWORDS : List String :=
  ["results", "earnings", "q1", "q2", "q3", "q4", "quarter", "dividend",
   "bonus", "split", "merger", "acquisition", "rbi", "policy", "court",
   "hearing", "order", "judgment", "verdict"]

def BREAKING_KEYWORDS : List String :=
  ["breaking", "just in", "live", "alert", "urgent", "flash"]

/-- Python's `pat in s` on character sequences: `pat` occurs as a
contiguous sublist of `s`. -/
def containsSeq : List Char → List Char → Bool
  | pat, [] => pat.isEmpty
  | pat, c :: rest => pat.isPrefixOf (c :: rest) || containsSeq pat rest

/-- `text.lower()` as a character list (`String.toLower` char by char). -/
def lowerChars (s : String) : List Char := s.data.map Char.toLower

def containsWord (text : List Char) (w : String) : Bool := containsSeq w.data text

/-- The lower-cased `title + " " + description` of one headline. -/
def headlineTextLower (h : Headline) : List Char :=
  lowerChars (h.title ++ " " ++ h.description)

/-- `sentiment_engine.py` lines 79–90: the per-headline keyword score. -/
def headlineScore (h : Headline) : ℤ :=
  let textLower := headlineTextLower h
  let pos := POSITIVE_WORDS.foldl
    (fun s w => if containsWord textLower w then s + 1 else s) 0
  NEGATIVE_WORDS.foldl
    (fun s w => if containsWord textLower w then s - 1 else s) pos

structure SentimentResult where
  score : ℚ
  label : SentimentLabel
  summary : String
  deriving DecidableEq, Repr

/-- `simple_sentiment_from_headlines` (`sentiment_engine.py` 70–109). -/
def simple_sentiment_from_headlines (headlines : List Headline) : SentimentResult :=
  if headlines.isEmpty then
    ⟨0.0, SentimentLabel.NEUTRAL, "No recent news found for this stock."⟩
  else
    let scores := headlines.map headlineScore
    -- the `if not scores` branch of the source (unreachable here since
    -- `scores` has one entry per headline, but kept for fidelity)
    if scores.isEmpty then
      ⟨0.0, SentimentLabel.NEUTRAL,
        "News headlines were not clearly positive or negative."⟩
    else
      let avgRaw : ℚ := ((scores.foldl (· + ·) 0 : ℤ) : ℚ) / (scores.length : ℚ)
      let maxAbs : ℚ := ((max 1 ((scores.map Int.natAbs).foldl max 0) : ℕ) : ℚ)
      let scoreNorm := avgRaw / maxAbs
      let label :=
        if scoreNorm > 0.2 then SentimentLabel.POSITIVE
        else if scoreNorm < -0.2 then SentimentLabel.NEGATIVE
        else SentimentLabel.NEUTRAL
      let rawTitles := (headlines.map Headline.title).filter (fun t => !t.isEmpty)
      let summary :=
        if rawTitles.isEmpty then "News is available, but not strongly directional."
        else String.intercalate "; " (rawTitles.take 2)
      ⟨scoreNorm, label, summary⟩

/-- `determine_news_risk` (`sentiment_engine.py` 112–140): the source's
flag-setting loop over headlines is the any-of-any below. -/
def determine_news_risk (headlines : List Headline) : NewsRiskFlag :=
  if headlines.isEmpty then NewsRiskFlag.NONE
  else
    let hasEvent := headlines.any (fun h =>
      EVENT_KEYWORDS.any (fun w => containsWord (headlineTextLower h) w))
    let hasBreaking := headlines.any (fun h =>
      BREAKING_KEYWORDS.any (fun w => containsWord (headlineTextLower h) w))
    if hasBreaking then NewsRiskFlag.BREAKING
    else if hasEvent then NewsRiskFlag.EVENT_RISK
    else NewsRiskFlag.NONE

/-! ## C9 — empty headline list -/

/-- **C9 counterexample.** The claim's quoted fallback summary text
"no headlines found" is not what the code returns on the empty list: the
source (`sentiment_engine.py` line 77) returns
"No recent news found for this stock.". -/
theorem empty_headlines_summary_counterexample :
    (simple_sentiment_from_headlines []).summary =
        "No recent news found for this stock." ∧
      (simple_sentiment_from_headlines []).summary ≠ "no headlines found" := by
  constructor
  · rfl
  · decide

/-- **C9 (amended).** For the empty headline list the sentiment classifier
returns score `0.0`, label `NEUTRAL` and the fixed fallback summary
"No recent news found for this stock.", and the risk classifier returns
`NONE`. -/
theorem empty_headlines_fallback :
    (simple_sentiment_from_headlines []).score = 0 ∧
      (simple_sentiment_from_headlines []).label = SentimentLabel.NEUTRAL ∧
      (simple_sentiment_from_headlines []).summary =
        "No recent news found for this stock." ∧
      determine_news_risk [] = NewsRiskFlag.NONE := by
  refine ⟨?_, rfl, rfl, rfl⟩
  show (0.0 : ℚ) = 0
  norm_num

/-! ## Market regime classifier — `src/prediction_engine.py` lines 118–169

The benchmark series is modelled by its close column, as a list of `ℚ` in
index (time) order (the source's `sort_index()` has already been applied).
pandas `pct_change().dropna()` is the list of consecutive relative
changes; `std()` is the sample standard deviation (`ddof = 1`), which the
embedding carries as the sample *variance* and compares against squared
thresholds (`std ≥ c ⟺ var ≥ c²` for `c ≥ 0`). -/

/-- Consecutive relative changes `(c_{i+1} - c_i) / c_i`. -/
def pctChanges (closes : List ℚ) : List ℚ :=
  (closes.zip closes.tail).map (fun p => (p.2 - p.1) / p.1)

/-- Mean of a list of rationals (used on non-empty lists only). -/
def listMean (rs : List ℚ) : ℚ := rs.sum / (rs.length : ℚ)

/-- Sample variance (`ddof = 1`), the square of pandas `std()`.  A list
with fewer than two elements is mapped to `0`; the classifier only applies
this to lists of 29 or more changes. -/
def sampleVar (rs : List ℚ) : ℚ :=
  if rs.length ≤ 1 then 0
  else ((rs.map (fun r => (r - listMean rs) ^ 2)).sum) / ((rs.length : ℚ) - 1)

def listMax : List ℚ → ℚ
  | [] => 0
  | c :: rest => rest.foldl max c

def listMin : List ℚ → ℚ
  | [] => 0
  | c :: rest => rest.foldl min c

/-- `compute_market_regime` (`prediction_engine.py` 118–169).  The inner
`closes.empty` re-check of the source is subsumed by the length guard.
`isTrend` models `trend_tag == "TREND"`. -/
def compute_market_regime (closes : List ℚ) : MarketRegime :=
  if closes.length < 30 then MarketRegime.UNKNOWN
  else
    let first_price := closes.headD 0
    let last_price := closes.getLastD 0
    let day_range := listMax closes - listMin closes
    let price_change := |last_price - first_price|
    let trend_ratio := if day_range = 0 then (0 : ℚ) else price_change / day_range
    let intradayVarSq := sampleVar (pctChanges closes)
    let vol_tag : VolatilityLabel :=
      if intradayVarSq ≥ (0.004 : ℚ) ^ 2 then VolatilityLabel.HIGH
      else if intradayVarSq ≤ (0.0015 : ℚ) ^ 2 then VolatilityLabel.LOW
      else VolatilityLabel.MEDIUM
    let isTrend : Bool := trend_ratio ≥ 0.6
    if isTrend ∧ (vol_tag = VolatilityLabel.HIGH ∨ vol_tag = VolatilityLabel.MEDIUM) then
      MarketRegime.TREND_DAY
    else if ¬isTrend ∧ vol_tag = VolatilityLabel.HIGH then
      MarketRegime.HIGH_VOLATILITY
    else if vol_tag = VolatilityLabel.LOW then
      MarketRegime.LOW_VOLATILITY
    else
      MarketRegime.RANGE_DAY

/-- The volatility bucket exactly as the spec words it (squared-threshold
encoding of `stdev ≥ 0.004` / `stdev ≤ 0.0015`). -/
def volBucketSpec (varSq : ℚ) : VolatilityLabel :=
  if varSq ≥ (0.004 : ℚ) ^ 2 then VolatilityLabel.HIGH
  else if varSq ≤ (0.0015 : ℚ) ^ 2 then VolatilityLabel.LOW
  else VolatilityLabel.MEDIUM

/-- The trend bucket of the spec: TREND iff `trend_ratio ≥ 0.6`. -/
def trendBucketSpec (trendRatio : ℚ) : Bool := trendRatio ≥ 0.6

/-- The spec's combination rule, in its stated priority order. -/
def combineSpec (isTrend : Bool) (vol : VolatilityLabel) : MarketRegime :=
  if isTrend ∧ (vol = VolatilityLabel.HIGH ∨ vol = VolatilityLabel.MEDIUM) then
    MarketRegime.TREND_DAY
  else if ¬isTrend ∧ vol = VolatilityLabel.HIGH then
    MarketRegime.HIGH_VOLATILITY
  else if vol = VolatilityLabel.LOW then
    MarketRegime.LOW_VOLATILITY
  else
    MarketRegime.RANGE_DAY

/-- The reference definition of the regime from the spec's words:
`trend_ratio = |last − first| / (max − min)` (0 when the range is 0),
volatility measured by the stdev of pct-changes against 0.004 / 0.0015,
combined by `combineSpec`. -/
def regimeSpec (closes : List ℚ) : MarketRegime :=
  if closes.length < 30 then MarketRegime.UNKNOWN
  else
    let dayRange := listMax closes - listMin closes
    let trendRatio :=
      if dayRange = 0 then (0 : ℚ)
      else |closes.getLastD 0 - closes.headD 0| / dayRange
    combineSpec (trendBucketSpec trendRatio)
      (volBucketSpec (sampleVar (pctChanges closes)))

/-- **C7.** `compute_market_regime` returns UNKNOWN on every series of
fewer than 30 observations, and on every series of at least 30
(positive-price) observations it returns exactly the spec's reference
definition.  (Positivity scopes the statement to series on which the
Python `pct_change` is a total, finite operation.) -/
theorem compute_market_regime_spec :
    (∀ closes : List ℚ, closes.length < 30 →
      compute_market_regime closes = MarketRegime.UNKNOWN) ∧
    (∀ closes : List ℚ, 30 ≤ closes.length → (∀ c ∈ closes, 0 < c) →
      compute_market_regime closes = regimeSpec closes) := by
  constructor
  · intro closes h
    unfold compute_market_regime
    rw [if_pos h]
  · intro closes h30 _hpos
    have hlen : ¬ closes.length < 30 := by omega
    unfold compute_market_regime regimeSpec
    rw [if_neg hlen, if_neg hlen]
    rfl

/-- Witness for C7: the empty series is UNKNOWN, and a concrete
30-observation series of positive constant closes satisfies both
hypotheses of the refinement part. -/
theorem compute_market_regime_spec_witness :
    compute_market_regime [] = MarketRegime.UNKNOWN ∧
      compute_market_regime (List.replicate 30 (100 : ℚ)) =
        regimeSpec (List.replicate 30 (100 : ℚ)) := by
  constructor
  · exact compute_market_regime_spec.1 [] (by simp)
  · refine compute_market_regime_spec.2 (List.replicate 30 (100 : ℚ)) (by simp) ?_
    intro c hc
    rw [List.eq_of_mem_replicate hc]
    norm_num

/-! ## Prediction journal — `src/journal.py` lines 63–99

A journal row is its identity key (date, time_bucket, ticker) plus the
remaining `PREDICTION_COLUMNS` fields, abstracted as a `payload` of type
`V`: the column loop at lines 93–94 copies *every* column of the incoming
row into the matched row (the key columns coincide on a key match), so
replacing the matched row wholesale is exactly what the source does.

* `upsertRow` is one iteration of the `for _, row in new_preds.iterrows()`
  loop: lines 84–96 (update the first row whose key matches, else append).
* `dropDupLast` is `drop_duplicates(subset=key, keep="last")` (line 98):
  a row survives iff no later row has the same key.
* `upsert_predictions` is the whole function, including the early return
  on an empty batch (lines 67–68), which skips the deduplication. -/

abbrev JKey := String × String × String

structure JRow (V : Type) where
  date : String
  time_bucket : String
  ticker : String
  payload : V
  deriving DecidableEq, Repr

def keyOf {V : Type} (r : JRow V) : JKey := (r.date, r.time_bucket, r.ticker)

def replaceFirst {V : Type} : List (JRow V) → JRow V → List (JRow V)
  | [], _ => []
  | q :: rest, r =>
      if keyOf q = keyOf r then r :: rest else q :: replaceFirst rest r

def upsertRow {V : Type} (J : List (JRow V)) (r : JRow V) : List (JRow V) :=
  if J.any (fun q => decide (keyOf q = keyOf r)) then replaceFirst J r
  else J ++ [r]

def dropDupLast {V : Type} : List (JRow V) → List (JRow V)
  | [] => []
  | r :: rest =>
      if rest.any (fun q => decide (keyOf q = keyOf r)) then dropDupLast rest
      else r :: dropDupLast rest

def upsert_predictions {V : Type} (J batch : List (JRow V)) : List (JRow V) :=
  if batch.isEmpty then J
  else dropDupLast (batch.foldl upsertRow J)

/-- The store has at most one live row per key. -/
def keysNodup {V : Type} (J : List (JRow V)) : Prop := (J.map keyOf).Nodup

/-- The first (and, under `keysNodup`, the only) row with the given key. -/
def findByKey {V : Type} (J : List (JRow V)) (k : JKey) : Option (JRow V) :=
  J.find? (fun q => decide (keyOf q = k))

/-- The last row of a batch carrying the given key, if any. -/
def lastMatch {V : Type} : List (JRow V) → JKey → Option (JRow V)
  | [], _ => none
  | r :: rest, k =>
      match lastMatch rest k with
      | some q => some q
      | none => if keyOf r = k then some r else none

/-! Auxiliary lemmas about the upsert machinery. -/

theorem anyKey_iff {V : Type} (J : List (JRow V)) (k : JKey) :
    (J.any (fun q => decide (keyOf q = k)) = true) ↔ k ∈ J.map keyOf := by
  constructor
  · intro h
    rcases List.any_eq_true.mp h with ⟨q, hq, hpq⟩
    exact List.mem_map.mpr ⟨q, hq, of_decide_eq_true hpq⟩
  · intro h
    rcases List.mem_map.mp h with ⟨q, hq, hk⟩
    exact List.any_eq_true.mpr ⟨q, hq, decide_eq_true hk⟩

theorem replaceFirst_map_keyOf {V : Type} (J : List (JRow V)) (r : JRow V) :
    (replaceFirst J r).map keyOf = J.map keyOf := by
  induction J with
  | nil => rfl
  | cons q rest ih =>
    unfold replaceFirst
    split_ifs with h
    · simp [h]
    · simp [ih]

theorem upsertRow_map_keyOf {V : Type} (J : List (JRow V)) (r : JRow V) :
    (upsertRow J r).map keyOf =
      if keyOf r ∈ J.map keyOf then J.map keyOf
      else J.map keyOf ++ [keyOf r] := by
  unfold upsertRow
  by_cases h : keyOf r ∈ J.map keyOf
  · rw [if_pos ((anyKey_iff J (keyOf r)).mpr h), if_pos h, replaceFirst_map_keyOf]
  · rw [if_neg (fun hc => h ((anyKey_iff J (keyOf r)).mp hc)), if_neg h,
      List.map_append]
    rfl

theorem keysNodup_upsertRow {V : Type} (J : List (JRow V)) (r : JRow V)
    (h : keysNodup J) : keysNodup (upsertRow J r) := by
  unfold keysNodup at *
  rw [upsertRow_map_keyOf]
  split_ifs with hmem
  · exact h
  · simp [List.nodup_append, h, hmem]

theorem findByKey_nil {V : Type} (k : JKey) :
    findByKey ([] : List (JRow V)) k = none := rfl

theorem findByKey_cons {V : Type} (q : JRow V) (rest : List (JRow V)) (k : JKey) :
    findByKey (q :: rest) k = if keyOf q = k then some q else findByKey rest k := by
  unfold findByKey
  by_cases h : keyOf q = k
  · rw [if_pos h]
    exact List.find?_cons_of_pos rest (decide_eq_true h)
  · rw [if_neg h]
    exact List.find?_cons_of_neg rest (by simpa using h)

theorem findByKey_eq_none {V : Type} (J : List (JRow V)) (k : JKey)
    (h : k ∉ J.map keyOf) : findByKey J k = none := by
  induction J with
  | nil => rfl
  | cons q rest ih =>
    rw [List.map_cons, List.mem_cons] at h
    push_neg at h
    rw [findByKey_cons, if_neg (fun hc => h.1 hc.symm)]
    exact ih h.2

theorem findByKey_replaceFirst {V : Type} (J : List (JRow V)) (r : JRow V)
    (hmem : keyOf r ∈ J.map keyOf) (k : JKey) :
    findByKey (replaceFirst J r) k =
      if k = keyOf r then some r else findByKey J k := by
  induction J with
  | nil => simp at hmem
  | cons q rest ih =>
    by_cases h : keyOf q = keyOf r
    · have hrf : replaceFirst (q :: rest) r = r :: rest := by
        unfold replaceFirst
        rw [if_pos h]
      rw [hrf, findByKey_cons, findByKey_cons]
      by_cases hk : k = keyOf r
      · rw [if_pos hk, if_pos hk.symm]
      · rw [if_neg hk, if_neg (fun hc : keyOf r = k => hk hc.symm),
          if_neg (fun hc : keyOf q = k => hk (hc.symm.trans h))]
    · have hrf : replaceFirst (q :: rest) r = q :: replaceFirst rest r := by
        show (if keyOf q = keyOf r then r :: rest else q :: replaceFirst rest r) =
          q :: replaceFirst rest r
        rw [if_neg h]
      have hmem' : keyOf r ∈ rest.map keyOf := by
        rcases List.mem_map.mp hmem with ⟨q', hq', hkq⟩
        rcases List.mem_cons.mp hq' with hq1 | hq2
        · exact absurd (hq1 ▸ hkq) h
        · exact List.mem_map.mpr ⟨q', hq2, hkq⟩
      rw [hrf, findByKey_cons, findByKey_cons, ih hmem']
      by_cases hqk : keyOf q = k
      · have hk : ¬ k = keyOf r := fun hc => h (hqk.trans hc)
        rw [if_pos hqk, if_neg hk, if_pos hqk]
      · by_cases hk : k = keyOf r
        · rw [if_neg hqk, if_pos hk, if_pos hk]
        · rw [if_neg hqk, if_neg hk, if_neg hk, if_neg hqk]

theorem findByKey_append_single {V : Type} (J : List (JRow V)) (r : JRow V)
    (k : JKey) :
    findByKey (J ++ [r]) k =
      match findByKey J k with
      | some q => some q
      | none => if keyOf r = k then some r else none := by
  induction J with
  | nil =>
    rw [List.nil_append, findByKey_cons, findByKey_nil]
  | cons q rest ih =>
    rw [List.cons_append, findByKey_cons, findByKey_cons]
    by_cases hqk : keyOf q = k
    · rw [if_pos hqk, if_pos hqk]
    · rw [if_neg hqk, if_neg hqk, ih]

theorem findByKey_upsertRow {V : Type} (J : List (JRow V)) (r : JRow V)
    (k : JKey) :
    findByKey (upsertRow J r) k =
      if k = keyOf r then some r else findByKey J k := by
  unfold upsertRow
  by_cases h : keyOf r ∈ J.map keyOf
  · rw [if_pos ((anyKey_iff J (keyOf r)).mpr h)]
    exact findByKey_replaceFirst J r h k
  · rw [if_neg (fun hc => h ((anyKey_iff J (keyOf r)).mp hc)),
      findByKey_append_single]
    by_cases hk : k = keyOf r
    · subst hk
      rw [findByKey_eq_none J _ h]
    · rw [if_neg hk]
      cases hfind : findByKey J k with
      | some q => rfl
      | none => rw [if_neg (fun hc : keyOf r = k => hk hc.symm)]

theorem keysNodup_foldl {V : Type} (b : List (JRow V)) :
    ∀ J : List (JRow V), keysNodup J → keysNodup (b.foldl upsertRow J) := by
  induction b with
  | nil => exact fun J h => h
  | cons r rest ih =>
    intro J h
    rw [List.foldl_cons]
    exact ih (upsertRow J r) (keysNodup_upsertRow J r h)

theorem dropDupLast_eq_self {V : Type} (J : List (JRow V))
    (h : keysNodup J) : dropDupLast J = J := by
  induction J with
  | nil => rfl
  | cons r rest ih =>
    have h' : (∀ x ∈ rest, ¬ keyOf x = keyOf r) ∧ (rest.map keyOf).Nodup := by
      simpa [keysNodup] using h
    have hany : ¬ (rest.any (fun q => decide (keyOf q = keyOf r)) = true) := by
      intro hc
      rcases List.mem_map.mp ((anyKey_iff rest (keyOf r)).mp hc) with ⟨p, hp, hkp⟩
      exact h'.1 p hp hkp
    show (if rest.any (fun q => decide (keyOf q = keyOf r)) then dropDupLast rest
      else r :: dropDupLast rest) = r :: rest
    rw [if_neg hany, ih h'.2]

theorem findByKey_foldl {V : Type} (b : List (JRow V)) :
    ∀ (J : List (JRow V)) (k : JKey),
      findByKey (b.foldl upsertRow J) k =
        match lastMatch b k with
        | some q => some q
        | none => findByKey J k := by
  induction b with
  | nil => intro J k; rfl
  | cons r rest ih =>
    intro J k
    rw [List.foldl_cons, ih (upsertRow J r) k]
    show _ = match lastMatch (r :: rest) k with
      | some q => some q
      | none => findByKey J k
    have hstep : lastMatch (r :: rest) k =
        match lastMatch rest k with
        | some q => some q
        | none => if keyOf r = k then some r else none := rfl
    rw [hstep]
    cases hlm : lastMatch rest k with
    | some q => rfl
    | none =>
      rw [findByKey_upsertRow]
      by_cases hk : keyOf r = k
      · rw [if_pos hk, if_pos hk.symm]
      · rw [if_neg hk, if_neg (fun hc : k = keyOf r => hk hc.symm)]

/-! ## C4 — idempotence of upsert -/

/-- Rows used by the C4 counterexample: a starting store that already
holds two rows with the same (date, time_bucket, ticker) key. -/
def c4old1 : JRow String := ⟨"2025-01-06", "10:00", "TCS", "old1"⟩
def c4old2 : JRow String := ⟨"2025-01-06", "10:00", "TCS", "old2"⟩
def c4new : JRow String := ⟨"2025-01-06", "10:00", "TCS", "new"⟩
def c4Start : List (JRow String) := [c4old1, c4old2]
def c4Batch : List (JRow String) := [c4new]

/-- **C4 counterexample.** Over a starting store that already contains two
rows with the same key, upserting the same one-row batch once and twice
do not agree: the update loop writes into the *first* matching row, while
`drop_duplicates(keep="last")` keeps the *last*, so the first upsert
yields the untouched old duplicate and only the second upsert yields the
new row. -/
theorem upsert_idempotent_counterexample :
    upsert_predictions c4Start c4Batch = [c4old2] ∧
      upsert_predictions (upsert_predictions c4Start c4Batch) c4Batch =
        [c4new] ∧
      upsert_predictions (upsert_predictions c4Start c4Batch) c4Batch ≠
        upsert_predictions c4Start c4Batch := by
  refine ⟨by decide, by decide, by decide⟩

/-- **C4 (amended).** For every starting store with at most one row per
key — the invariant every store reachable by upserts from an empty store
satisfies — and every batch, upserting the batch twice leaves the store
identical to upserting it once: the same record under every key, and no
duplicate rows. -/
theorem upsert_predictions_idempotent {V : Type} (J b : List (JRow V))
    (h : keysNodup J) :
    (∀ k, findByKey (upsert_predictions (upsert_predictions J b) b) k =
        findByKey (upsert_predictions J b) k) ∧
      keysNodup (upsert_predictions J b) ∧
      keysNodup (upsert_predictions (upsert_predictions J b) b) := by
  by_cases hb : b.isEmpty
  · have hJ : ∀ J' : List (JRow V), upsert_predictions J' b = J' := by
      intro J'
      unfold upsert_predictions
      rw [if_pos hb]
    simp only [hJ]
    exact ⟨fun k => trivial, h, h⟩
  · have h1 : upsert_predictions J b = b.foldl upsertRow J := by
      unfold upsert_predictions
      rw [if_neg hb]
      exact dropDupLast_eq_self _ (keysNodup_foldl b J h)
    have hn1 : keysNodup (upsert_predictions J b) := by
      rw [h1]
      exact keysNodup_foldl b J h
    have h2 : upsert_predictions (upsert_predictions J b) b =
        b.foldl upsertRow (upsert_predictions J b) := by
      unfold upsert_predictions
      rw [if_neg hb]
      exact dropDupLast_eq_self _ (keysNodup_foldl b _ hn1)
    refine ⟨?_, hn1, ?_⟩
    · intro k
      rw [h2, h1, findByKey_foldl, findByKey_foldl]
      cases hlm : lastMatch b k with
      | some q => rfl
      | none => rfl
    · rw [h2]
      exact keysNodup_foldl b _ hn1

/-- Rows used by the C4 witness (a duplicate-free store). -/
def c4wStart : List (JRow String) := [⟨"2025-01-06", "10:00", "INFY", "p"⟩]
def c4wBatch : List (JRow String) :=
  [⟨"2025-01-06", "10:00", "INFY", "q"⟩, ⟨"2025-01-06", "10:00", "WIPRO", "s"⟩]

/-- Witness for C4 at a concrete duplicate-free store and batch. -/
theorem upsert_predictions_idempotent_witness :
    findByKey (upsert_predictions (upsert_predictions c4wStart c4wBatch) c4wBatch)
        ("2025-01-06", "10:00", "INFY") =
      findByKey (upsert_predictions c4wStart c4wBatch)
        ("2025-01-06", "10:00", "INFY") ∧
    keysNodup (upsert_predictions c4wStart c4wBatch) ∧
    keysNodup (upsert_predictions (upsert_predictions c4wStart c4wBatch) c4wBatch) := by
  have h := upsert_predictions_idempotent c4wStart c4wBatch
    (by unfold keysNodup; decide)
  exact ⟨h.1 _, h.2.1, h.2.2⟩

/-! ## C5 — replacement semantics of upsert -/

theorem map_keep_of_no_match {V : Type} (r : JRow V) :
    ∀ l : List (JRow V), (∀ p ∈ l, keyOf p ≠ keyOf r) →
      l.map (fun q => if keyOf q = keyOf r then r else q) = l := by
  intro l hl
  induction l with
  | nil => rfl
  | cons p rest ih =>
    rw [List.map_cons, if_neg (hl p (by simp)),
      ih (fun p' hp' => hl p' (by simp [hp']))]

theorem replaceFirst_eq_map {V : Type} (J : List (JRow V)) (r : JRow V)
    (h : keysNodup J) :
    replaceFirst J r = J.map (fun q => if keyOf q = keyOf r then r else q) := by
  induction J with
  | nil => rfl
  | cons q rest ih =>
    have h' : (∀ x ∈ rest, ¬ keyOf x = keyOf q) ∧ (rest.map keyOf).Nodup := by
      simpa [keysNodup] using h
    rw [List.map_cons]
    by_cases hq : keyOf q = keyOf r
    · have hhead : replaceFirst (q :: rest) r = r :: rest := by
        show (if keyOf q = keyOf r then r :: rest else q :: replaceFirst rest r) =
          r :: rest
        rw [if_pos hq]
      rw [hhead, if_pos hq,
        map_keep_of_no_match r rest (fun p hp hc => h'.1 p hp (hc.trans hq.symm))]
    · have hhead : replaceFirst (q :: rest) r = q :: replaceFirst rest r := by
        show (if keyOf q = keyOf r then r :: rest else q :: replaceFirst rest r) =
          q :: replaceFirst rest r
        rw [if_neg hq]
      rw [hhead, if_neg hq, ih h'.2]

/-- **C5 (amended).** Over a store with at most one row per key, upserting
a single record whose key is already present rewrites that key's row *in
place* to the incoming record — every field overwritten, nothing of the
prior record kept, every other row untouched, and no row appended. -/
theorem upsert_predictions_replaces {V : Type} (J : List (JRow V))
    (r : JRow V) (h : keysNodup J) (hmem : keyOf r ∈ J.map keyOf) :
    upsert_predictions J [r] =
        J.map (fun q => if keyOf q = keyOf r then r else q) ∧
      (upsert_predictions J [r]).length = J.length ∧
      findByKey (upsert_predictions J [r]) (keyOf r) = some r := by
  have hfold : ([r] : List (JRow V)).foldl upsertRow J = upsertRow J r := by
    rw [List.foldl_cons, List.foldl_nil]
  have hrow : upsertRow J r = replaceFirst J r := by
    unfold upsertRow
    rw [if_pos ((anyKey_iff J (keyOf r)).mpr hmem)]
  have hnodup : keysNodup (replaceFirst J r) := by
    unfold keysNodup
    rw [replaceFirst_map_keyOf]
    exact h
  have hmain : upsert_predictions J [r] = replaceFirst J r := by
    unfold upsert_predictions
    rw [if_neg (by simp), hfold, hrow]
    exact dropDupLast_eq_self _ hnodup
  refine ⟨?_, ?_, ?_⟩
  · rw [hmain]
    exact replaceFirst_eq_map J r h
  · rw [hmain, replaceFirst_eq_map J r h, List.length_map]
  · rw [hmain, findByKey_replaceFirst J r hmem, if_pos rfl]

/-- Rows used by the C5 counterexample: again a store with a duplicated
key. -/
def c5old1 : JRow String := ⟨"2025-01-07", "10:15", "HDFC", "prior1"⟩
def c5old2 : JRow String := ⟨"2025-01-07", "10:15", "HDFC", "prior2"⟩
def c5new : JRow String := ⟨"2025-01-07", "10:15", "HDFC", "incoming"⟩
def c5Start : List (JRow String) := [c5old1, c5old2]

/-- **C5 counterexample.** Over a store that already holds two rows with
the incoming key, the surviving row after the upsert is the *prior*
second duplicate, not the incoming record: every field of the survivor is
a field of a prior record, contradicting "never keeps any field of the
prior record" as quantified over every store state. -/
theorem upsert_replaces_counterexample :
    upsert_predictions c5Start [c5new] = [c5old2] ∧
      c5old2.payload ≠ c5new.payload ∧
      findByKey (upsert_predictions c5Start [c5new]) (keyOf c5new) =
        some c5old2 := by
  refine ⟨by decide, by decide, by decide⟩

/-- Witness for C5 at a concrete duplicate-free store. -/
theorem upsert_predictions_replaces_witness :
    upsert_predictions c4wStart [⟨"2025-01-06", "10:00", "INFY", "fresh"⟩] =
        c4wStart.map (fun q =>
          if keyOf q = keyOf (⟨"2025-01-06", "10:00", "INFY", "fresh"⟩ : JRow String)
          then ⟨"2025-01-06", "10:00", "INFY", "fresh"⟩ else q) ∧
      (upsert_predictions c4wStart
          [⟨"2025-01-06", "10:00", "INFY", "fresh"⟩]).length = c4wStart.length ∧
      findByKey (upsert_predictions c4wStart
          [⟨"2025-01-06", "10:00", "INFY", "fresh"⟩])
          (keyOf (⟨"2025-01-06", "10:00", "INFY", "fresh"⟩ : JRow String)) =
        some ⟨"2025-01-06", "10:00", "INFY", "fresh"⟩ :=
  upsert_predictions_replaces c4wStart ⟨"2025-01-06", "10:00", "INFY", "fresh"⟩
    (by unfold keysNodup; decide) (by decide)

/-! ## Batch generation — `src/prediction_engine.py` lines 185–430

`generate_predictions_for_watchlist` computes, once per evaluation cycle,
the clock status, the NIFTY daily trend and the market regime
(lines 198–212), then loops over the watchlist producing one record per
instrument.  The cycle-level values form an `EvalContext`; the
provider-derived per-instrument values (lines 220–258) form an
`InstrumentInput`.  The record below carries the fields of the result
rows (lines 398–428) that the claims speak about; the free-text
explanation and news-summary columns are omitted. -/

structure EvalContext where
  dateStr : String
  timeBucket : String
  statusCode : SessionPhase
  niftyTrend : NiftyTrend
  marketRegime : MarketRegime
  deriving DecidableEq, Repr

structure InstrumentInput where
  ticker : String
  priceKnown : Bool
  stockTrend : StockTrend
  volumeSignal : VolumeSignal
  volatilityLabel : VolatilityLabel
  sentimentLabel : SentimentLabel
  newsRisk : NewsRiskFlag
  deriving DecidableEq, Repr

structure Prediction where
  date : String
  time_bucket : String
  ticker : String
  nifty_trend : NiftyTrend
  stock_short_trend : StockTrend
  market_regime : MarketRegime
  prediction_action : PredictionAction
  confidence_score : ℚ
  confidence_level_label : String
  confidence_trend : ℚ
  confidence_volume : ℚ
  confidence_sentiment : ℚ
  confidence_volatility : ℚ
  volume_signal : VolumeSignal
  sentiment_label : SentimentLabel
  news_risk_flag : NewsRiskFlag
  status_code : SessionPhase
  deriving DecidableEq, Repr

/-- One iteration of the watchlist loop (lines 261–428): score the
instrument and assemble its result row. -/
def scoreInstrument (ctx : EvalContext) (inp : InstrumentInput) : Prediction :=
  let act := actionable ctx.statusCode ctx.marketRegime
  let action := predictionAction act inp.priceKnown ctx.niftyTrend
    inp.stockTrend inp.sentimentLabel
  let tc := trendComponent action ctx.niftyTrend inp.stockTrend
  let vc := volumeComponent inp.volumeSignal
  let sc := sentimentComponent action inp.sentimentLabel
  let voc := volatilityComponent inp.volatilityLabel
  let conf := roundTo2 (riskCap inp.newsRisk
    (regimeAdjust ctx.marketRegime (baseConfidence action act tc vc sc voc)))
  { date := ctx.dateStr
    time_bucket := ctx.timeBucket
    ticker := inp.ticker
    nifty_trend := ctx.niftyTrend
    stock_short_trend := inp.stockTrend
    market_regime := ctx.marketRegime
    prediction_action := action
    confidence_score := conf
    confidence_level_label := confidenceLevelLabel conf
    confidence_trend := roundTo2 tc
    confidence_volume := roundTo2 vc
    confidence_sentiment := roundTo2 sc
    confidence_volatility := roundTo2 voc
    volume_signal := inp.volumeSignal
    sentiment_label := inp.sentimentLabel
    news_risk_flag := inp.newsRisk
    status_code := ctx.statusCode }

/-- The whole watchlist loop: one row per watchlist entry (an empty
watchlist yields the empty batch, line 195–196). -/
def generate_predictions_for_watchlist (ctx : EvalContext)
    (watch : List InstrumentInput) : List Prediction :=
  watch.map (scoreInstrument ctx)

/-- A generated row as stored in the journal, keyed by
(date, time_bucket, ticker). -/
def predictionToRow (p : Prediction) : JRow Prediction :=
  ⟨p.date, p.time_bucket, p.ticker, p⟩

/-! ## C6 — one market regime per (date, time_bucket) -/

/-- **C6 (amended).** Within a single evaluation batch, every record
carries the one market regime computed for that cycle (and the one date
and time bucket), so any two records of one batch agree on
(date, time_bucket, market_regime). -/
theorem batch_regime_uniform (ctx : EvalContext)
    (watch : List InstrumentInput) :
    ∀ p ∈ generate_predictions_for_watchlist ctx watch,
      p.market_regime = ctx.marketRegime ∧ p.date = ctx.dateStr ∧
        p.time_bucket = ctx.timeBucket := by
  intro p hp
  rcases List.mem_map.mp hp with ⟨inp, _, rfl⟩
  exact ⟨rfl, rfl, rfl⟩

def c6wCtx : EvalContext :=
  ⟨"2025-01-06", "10:00", SessionPhase.SCALP_1, NiftyTrend.BULLISH,
    MarketRegime.TREND_DAY⟩

def c6wInp : InstrumentInput :=
  ⟨"TCS", true, StockTrend.UP, VolumeSignal.HIGH, VolatilityLabel.HIGH,
    SentimentLabel.NEUTRAL, NewsRiskFlag.NONE⟩

/-- Witness for C6 on a concrete one-instrument batch. -/
theorem batch_regime_uniform_witness :
    (scoreInstrument c6wCtx c6wInp).market_regime = c6wCtx.marketRegime ∧
      (scoreInstrument c6wCtx c6wInp).date = c6wCtx.dateStr ∧
      (scoreInstrument c6wCtx c6wInp).time_bucket = c6wCtx.timeBucket :=
  batch_regime_uniform c6wCtx [c6wInp] (scoreInstrument c6wCtx c6wInp)
    (List.mem_singleton.mpr rfl)

def c6CtxA : EvalContext :=
  ⟨"2025-01-06", "10:00", SessionPhase.SCALP_1, NiftyTrend.BULLISH,
    MarketRegime.TREND_DAY⟩

def c6CtxB : EvalContext :=
  ⟨"2025-01-06", "10:00", SessionPhase.SCALP_1, NiftyTrend.BULLISH,
    MarketRegime.RANGE_DAY⟩

def c6InpA : InstrumentInput :=
  ⟨"AAA", true, StockTrend.UP, VolumeSignal.HIGH, VolatilityLabel.HIGH,
    SentimentLabel.NEUTRAL, NewsRiskFlag.NONE⟩

def c6InpB : InstrumentInput :=
  ⟨"BBB", true, StockTrend.UP, VolumeSignal.HIGH, VolatilityLabel.HIGH,
    SentimentLabel.NEUTRAL, NewsRiskFlag.NONE⟩

def c6RowA : JRow Prediction := predictionToRow (scoreInstrument c6CtxA c6InpA)

def c6RowB : JRow Prediction := predictionToRow (scoreInstrument c6CtxB c6InpB)

/-- The journal after two evaluation cycles inside the same 15-minute
bucket: cycle A evaluates watchlist {AAA} under regime TREND_DAY, cycle B
evaluates watchlist {BBB} under regime RANGE_DAY. -/
def c6Journal : List (JRow Prediction) :=
  upsert_predictions
    (upsert_predictions []
      ((generate_predictions_for_watchlist c6CtxA [c6InpA]).map predictionToRow))
    ((generate_predictions_for_watchlist c6CtxB [c6InpB]).map predictionToRow)

/-- **C6 counterexample.** Two live journal records share the same
(date, time_bucket) but carry different market regimes: nothing ties a
journal bucket to a single regime once two cycles with different
watchlists and different computed regimes fall into the same bucket. -/
theorem journal_regime_counterexample :
    c6Journal = [c6RowA, c6RowB] ∧
      c6RowA.date = c6RowB.date ∧
      c6RowA.time_bucket = c6RowB.time_bucket ∧
      c6RowA.payload.market_regime ≠ c6RowB.payload.market_regime := by
  refine ⟨rfl, rfl, rfl, ?_⟩
  have hA : c6RowA.payload.market_regime = MarketRegime.TREND_DAY := rfl
  have hB : c6RowB.payload.market_regime = MarketRegime.RANGE_DAY := rfl
  intro hc
  rw [hA, hB] at hc
  exact MarketRegime.noConfusion hc
